import Mathlib

/-!
Verification development for the editor configuration-resolution layer
(`src/vs/editor/common/config/commonEditorConfig.ts`): primitive coercers,
the option normalizer, the process-wide shared toggles, and the
configuration snapshot store, shallowly embedded in Lean.

Modelling conventions:
* JavaScript's loosely-typed values are embedded as the inductive `RawValue`.
  JavaScript numbers are modelled as mathematical integers (`Int`); every
  numeric value exercised by the configuration code and its specification is
  integral, and 32-bit truncation (`| 0`) is made explicit as `toInt32`.
  Function-valued options (the `lineNumbers` callback) are modelled by an
  opaque identifier, with reference equality as identity of the identifier.
* Stateful code (the shared toggles, the snapshot store) is embedded by
  explicit state passing; event emission is returned as data.
* External collaborators (`EditorLayoutProvider.compute`, font measurement,
  the abstract host methods of `CommonEditorConfiguration`) are inputs,
  carried in a `ConfigEnv` record of functions.
-/

/-- A loosely-typed JavaScript scalar, as it may appear as an element of an
array-valued option.  `func id` stands for a function value with identity
`id` (reference equality between function values becomes equality of
identifiers). -/
inductive RawScalar where
  | undef : RawScalar
  | null : RawScalar
  | bool (b : Bool) : RawScalar
  | num (n : Int) : RawScalar
  | str (s : String) : RawScalar
  | func (id : Nat) : RawScalar
deriving DecidableEq, Repr

/-- A loosely-typed JavaScript value, as supplied in a raw options record.
Arrays hold scalars: no option of this code takes nested arrays, and the
coercers treat any nested array like any other unparsable element. -/
inductive RawValue where
  | undef : RawValue
  | null : RawValue
  | bool (b : Bool) : RawValue
  | num (n : Int) : RawValue
  | str (s : String) : RawValue
  | arr (elems : List RawScalar) : RawValue
  | func (id : Nat) : RawValue
deriving DecidableEq, Repr

/-- Embed a scalar into `RawValue`. -/
def RawScalar.toValue : RawScalar → RawValue
  | .undef => .undef
  | .null => .null
  | .bool b => .bool b
  | .num n => .num n
  | .str s => .str s
  | .func id => .func id

/-- JavaScript `String(·)` conversion on scalars. -/
def jsScalarToString : RawScalar → String
  | .undef => "undefined"
  | .null => "null"
  | .bool true => "true"
  | .bool false => "false"
  | .num n => toString n
  | .str s => s
  | .func _ => "function"

/-- JavaScript `String(·)` conversion, on the fragment of values the
configuration code converts (array elements are joined with commas,
`null`/`undefined` inside an array become the empty string). -/
def jsToString : RawValue → String
  | .undef => "undefined"
  | .null => "null"
  | .bool true => "true"
  | .bool false => "false"
  | .num n => toString n
  | .str s => s
  | .arr xs => String.intercalate "," (xs.map fun x =>
      match x with
      | .undef => ""
      | .null => ""
      | v => jsScalarToString v)
  | .func _ => "function"

/-- Decimal digit list folded to its value. -/
def digitsToNat (ds : List Char) : Nat :=
  ds.foldl (fun acc c => acc * 10 + (c.toNat - 48)) 0

/-- JavaScript `parseInt(s, 10)` on a string: skip leading whitespace,
parse an optional sign and the longest run of decimal digits, ignore any
trailing characters; `none` models `NaN` (no digits found). -/
def jsParseIntStr (s : String) : Option Int :=
  let cs := s.data.dropWhile fun c => c = ' ' ∨ c = '\t' ∨ c = '\n' ∨ c = '\r'
  let signAndRest : Int × List Char :=
    match cs with
    | '-' :: rest => (-1, rest)
    | '+' :: rest => (1, rest)
    | _ => (1, cs)
  let digs := signAndRest.2.takeWhile Char.isDigit
  if digs = [] then none
  else some (signAndRest.1 * (digitsToNat digs : Int))

/-- JavaScript `parseInt(value, 10)`: non-string arguments are first
converted via `String(·)`; integers round-trip through their decimal
representation, and `true`/`false`/`null`/`undefined`/functions parse to
`NaN` (modelled `none`).  Array-to-string parsing is not exercised by this
code and is modelled as `NaN`. -/
def jsParseInt : RawValue → Option Int
  | .str s => jsParseIntStr s
  | .num n => some n
  | _ => none

/-- JavaScript `parseFloat(value)` restricted to the integral values of this
model (fractional literals do not occur in the verified claims): same
parse as `jsParseInt` on the integer part. -/
def jsParseFloat : RawValue → Option Int
  | .str s => jsParseIntStr s
  | .num n => some n
  | _ => none

/-- `toBoolean` from commonEditorConfig.ts: the literal string `'false'`
coerces to `false`; otherwise JavaScript truthiness (`Boolean(value)`). -/
def toBoolean : RawValue → Bool
  | .str s => if s = "false" then false else !(s = "")
  | .bool b => b
  | .num n => !(n = 0)
  | .undef => false
  | .null => false
  | .arr _ => true
  | .func _ => true

/-- `toBooleanWithDefault` from commonEditorConfig.ts. -/
def toBooleanWithDefault (value : RawValue) (defaultValue : Bool) : Bool :=
  match value with
  | .undef => defaultValue
  | v => toBoolean v

/-- Modelled from the spec: `Constants.MAX_SAFE_SMALL_INTEGER` from the
`uint` module (not part of the sources under verification); the spec calls
the pair "the representable safe-integer range". -/
def MAX_SAFE_SMALL_INTEGER : Int := 2 ^ 30

/-- Modelled from the spec: `Constants.MIN_SAFE_SMALL_INTEGER` from the
`uint` module (not part of the sources under verification). -/
def MIN_SAFE_SMALL_INTEGER : Int := -(2 ^ 30)

/-- JavaScript `r | 0`: truncation to a signed 32-bit integer
(two's-complement wrap-around), written out on `Int`. -/
def toInt32 (r : Int) : Int :=
  (r + 2 ^ 31) % 2 ^ 32 - 2 ^ 31

/-- `toInteger(source, minimum, maximum)` from commonEditorConfig.ts:
parse as a base-10 integer, substitute 0 on parse failure, clamp by
`Math.max(minimum, ·)` and then `Math.min(maximum, ·)`, return `r | 0`. -/
def toInteger (source : RawValue) (minimum maximum : Int) : Int :=
  let r :=
    match jsParseInt source with
    | none => 0
    | some v => v
  let r := max minimum r
  let r := min maximum r
  toInt32 r

/-- `toInteger(source)` with the TypeScript default bounds
`Constants.MIN_SAFE_SMALL_INTEGER` / `Constants.MAX_SAFE_SMALL_INTEGER`. -/
def toIntegerDefault (source : RawValue) : Int :=
  toInteger source MIN_SAFE_SMALL_INTEGER MAX_SAFE_SMALL_INTEGER

/-- `toFloat(source, defaultValue)` from commonEditorConfig.ts (restricted
to the integral values of this model). -/
def toFloat (source : RawValue) (defaultValue : Int) : Int :=
  match jsParseFloat source with
  | none => defaultValue
  | some r => r

/-- `toIntegerWithDefault` from commonEditorConfig.ts. -/
def toIntegerWithDefault (source : RawValue) (defaultValue : Int) : Int :=
  match source with
  | .undef => defaultValue
  | v => toIntegerDefault v

/-- The comparison JavaScript's default `Array.prototype.sort()` uses:
elements converted with `String(·)` and compared as strings (code-unit
lexicographic order), not numerically. -/
def jsDefaultSortLe (a b : Int) : Prop :=
  (jsToString (.num a)).data ≤ (jsToString (.num b)).data

instance : DecidableRel jsDefaultSortLe := fun a b =>
  inferInstanceAs (Decidable ((jsToString (.num a)).data ≤ (jsToString (.num b)).data))

instance : IsTotal Int jsDefaultSortLe :=
  ⟨fun a b => le_total (jsToString (.num a)).data (jsToString (.num b)).data⟩

instance : IsTrans Int jsDefaultSortLe :=
  ⟨fun _ _ _ hab hbc => le_trans hab hbc⟩

/-- `toSortedIntegerArray` from commonEditorConfig.ts: non-arrays give `[]`;
arrays are mapped through `toInteger` (default bounds) and sorted with the
parameterless JavaScript `sort()`, i.e. by string comparison. -/
def toSortedIntegerArray (source : RawValue) : List Int :=
  match source with
  | .arr arrSource => (arrSource.map fun el => toIntegerDefault el.toValue).insertionSort jsDefaultSortLe
  | _ => []

example : toSortedIntegerArray (.arr [.num 3, .str "1", .num 2]) = [1, 2, 3] := by decide
example : toSortedIntegerArray (.arr [.num 10, .num 9]) = [10, 9] := by decide
example : toInteger (.str "9999999999999999") 0 100 = 100 := by decide
example : toInteger (.str "abc") 5 10 = 5 := by decide

/-! ## Enumerations from editorCommon (referenced by the configuration code) -/

/-- `ScrollbarVisibility` from vs/base/common/scrollable. -/
inductive ScrollbarVisibility where
  | Auto : ScrollbarVisibility
  | Hidden : ScrollbarVisibility
  | Visible : ScrollbarVisibility
deriving DecidableEq, Repr

/-- `WrappingIndent` from editorCommon. -/
inductive WrappingIndent where
  | None : WrappingIndent
  | Same : WrappingIndent
  | Indent : WrappingIndent
deriving DecidableEq, Repr

/-- `TextEditorCursorStyle` from editorCommon. -/
inductive TextEditorCursorStyle where
  | Line : TextEditorCursorStyle
  | Block : TextEditorCursorStyle
  | Underline : TextEditorCursorStyle
  | LineThin : TextEditorCursorStyle
  | BlockOutline : TextEditorCursorStyle
  | UnderlineThin : TextEditorCursorStyle
deriving DecidableEq, Repr

/-- `TextEditorCursorBlinkingStyle` from editorCommon. -/
inductive TextEditorCursorBlinkingStyle where
  | Blink : TextEditorCursorBlinkingStyle
  | Smooth : TextEditorCursorBlinkingStyle
  | Phase : TextEditorCursorBlinkingStyle
  | Expand : TextEditorCursorBlinkingStyle
  | Solid : TextEditorCursorBlinkingStyle
deriving DecidableEq, Repr

/-- `wrappingIndentFromString` from commonEditorConfig.ts.  The TypeScript
parameter is declared `string`; a raw non-string value falls through to the
default branch, so the comparison is against string values. -/
def wrappingIndentFromString (wrappingIndent : RawValue) : WrappingIndent :=
  if wrappingIndent = .str "indent" then .Indent
  else if wrappingIndent = .str "same" then .Same
  else .None

/-- `cursorStyleFromString` from commonEditorConfig.ts. -/
def cursorStyleFromString (cursorStyle : RawValue) : TextEditorCursorStyle :=
  if cursorStyle = .str "line" then .Line
  else if cursorStyle = .str "block" then .Block
  else if cursorStyle = .str "underline" then .Underline
  else if cursorStyle = .str "line-thin" then .LineThin
  else if cursorStyle = .str "block-outline" then .BlockOutline
  else if cursorStyle = .str "underline-thin" then .UnderlineThin
  else .Line

/-- `cursorBlinkingStyleFromString` from commonEditorConfig.ts
(`'visible'` is kept as a compatibility alias of `'solid'`). -/
def cursorBlinkingStyleFromString (cursorBlinkingStyle : RawValue) : TextEditorCursorBlinkingStyle :=
  if cursorBlinkingStyle = .str "blink" then .Blink
  else if cursorBlinkingStyle = .str "smooth" then .Smooth
  else if cursorBlinkingStyle = .str "phase" then .Phase
  else if cursorBlinkingStyle = .str "expand" then .Expand
  else if cursorBlinkingStyle = .str "visible" then .Solid
  else if cursorBlinkingStyle = .str "solid" then .Solid
  else .Blink

/-! ## Process-wide shared toggles -/

/-- The state of one process-wide shared toggle: its current boolean value
and the identities of its current subscribers (an `Emitter`'s listener
list), in subscription order. -/
structure SharedToggleState where
  value : Bool
  subscribers : List Nat
deriving DecidableEq, Repr

/-- Notifications delivered by one `Emitter.fire`: each current subscriber,
in subscription order, paired with the value it receives. -/
def fireToSubscribers (subs : List Nat) (v : Bool) : List (Nat × Bool) :=
  subs.map fun id => (id, v)

/-- `TabFocus.getTabFocusMode` from commonEditorConfig.ts. -/
def TabFocus_getTabFocusMode (s : SharedToggleState) : Bool :=
  s.value

/-- `TabFocus.setTabFocusMode` from commonEditorConfig.ts: a strict no-op
when the value is unchanged, otherwise the stored value is updated and
`_onDidChangeTabFocus.fire` synchronously notifies the current
subscribers with the new value.  The returned list is the sequence of
delivered notifications. -/
def TabFocus_setTabFocusMode (s : SharedToggleState) (tabFocusMode : Bool) :
    SharedToggleState × List (Nat × Bool) :=
  if s.value = tabFocusMode then (s, [])
  else ({ s with value := tabFocusMode }, fireToSubscribers s.subscribers tabFocusMode)

/-- The construction-time state of the `TabFocus` singleton:
`_tabFocus = false`, no subscribers yet. -/
def TabFocus_initialState : SharedToggleState :=
  { value := false, subscribers := [] }

/-- `GlobalScreenReaderNVDA.getValue` from commonEditorConfig.ts. -/
def GlobalScreenReaderNVDA_getValue (s : SharedToggleState) : Bool :=
  s.value

/-- `GlobalScreenReaderNVDA.setValue` from commonEditorConfig.ts: same
no-op-on-equal contract as `TabFocus_setTabFocusMode`. -/
def GlobalScreenReaderNVDA_setValue (s : SharedToggleState) (value : Bool) :
    SharedToggleState × List (Nat × Bool) :=
  if s.value = value then (s, [])
  else ({ s with value := value }, fireToSubscribers s.subscribers value)

/-- The construction-time state of the `GlobalScreenReaderNVDA` statics:
`_value = false`, no subscribers yet. -/
def GlobalScreenReaderNVDA_initialState : SharedToggleState :=
  { value := false, subscribers := [] }

/-- The process-wide globals read by the configuration code. -/
structure Globals where
  tabFocus : SharedToggleState
  screenReader : SharedToggleState
deriving DecidableEq, Repr

/-! ## Raw options (IEditorOptions and sub-records) -/

/-- `IEditorScrollbarOptions`: the raw scrollbar sub-record.  Fields not
supplied by the user are `RawValue.undef`. -/
structure IEditorScrollbarOptions where
  vertical : RawValue
  horizontal : RawValue
  arrowSize : RawValue
  useShadows : RawValue
  verticalHasArrows : RawValue
  horizontalHasArrows : RawValue
  horizontalScrollbarSize : RawValue
  horizontalSliderSize : RawValue
  verticalScrollbarSize : RawValue
  verticalSliderSize : RawValue
  handleMouseWheel : RawValue
deriving DecidableEq, Repr

/-- An `IEditorScrollbarOptions` with every field absent. -/
def emptyScrollbarOpts : IEditorScrollbarOptions :=
  { vertical := .undef, horizontal := .undef, arrowSize := .undef, useShadows := .undef
    verticalHasArrows := .undef, horizontalHasArrows := .undef
    horizontalScrollbarSize := .undef, horizontalSliderSize := .undef
    verticalScrollbarSize := .undef, verticalSliderSize := .undef
    handleMouseWheel := .undef }

/-- `IEditorMinimapOptions`: the raw minimap sub-record. -/
structure IEditorMinimapOptions where
  enabled : RawValue
  renderCharacters : RawValue
  maxColumn : RawValue
deriving DecidableEq, Repr

/-- An `IEditorMinimapOptions` with every field absent. -/
def emptyMinimapOpts : IEditorMinimapOptions :=
  { enabled := .undef, renderCharacters := .undef, maxColumn := .undef }

/-- `IEditorOptions`: the merged raw options record, restricted to the
fields the configuration code reads.  Fields not supplied are
`RawValue.undef`; the object-valued `scrollbar`/`minimap` groups are
sub-records (always present after the defaults merge). -/
structure IEditorOptions where
  theme : RawValue
  ariaLabel : RawValue
  rulers : RawValue
  wordSeparators : RawValue
  selectionClipboard : RawValue
  lineNumbers : RawValue
  selectOnLineNumbers : RawValue
  lineNumbersMinChars : RawValue
  glyphMargin : RawValue
  lineDecorationsWidth : RawValue
  revealHorizontalRightPadding : RawValue
  roundedSelection : RawValue
  readOnly : RawValue
  scrollbar : IEditorScrollbarOptions
  minimap : IEditorMinimapOptions
  fixedOverflowWidgets : RawValue
  overviewRulerLanes : RawValue
  cursorBlinking : RawValue
  mouseWheelZoom : RawValue
  cursorStyle : RawValue
  fontLigatures : RawValue
  disableTranslate3d : RawValue
  disableMonospaceOptimizations : RawValue
  hideCursorInOverviewRuler : RawValue
  scrollBeyondLastLine : RawValue
  wordWrap : RawValue
  wordWrapColumn : RawValue
  wrappingIndent : RawValue
  wordWrapBreakBeforeCharacters : RawValue
  wordWrapBreakAfterCharacters : RawValue
  wordWrapBreakObtrusiveCharacters : RawValue
  stopRenderingLineAfter : RawValue
  hover : RawValue
  contextmenu : RawValue
  mouseWheelScrollSensitivity : RawValue
  quickSuggestions : RawValue
  quickSuggestionsDelay : RawValue
  parameterHints : RawValue
  iconsInSuggestions : RawValue
  autoClosingBrackets : RawValue
  formatOnType : RawValue
  formatOnPaste : RawValue
  suggestOnTriggerCharacters : RawValue
  acceptSuggestionOnEnter : RawValue
  acceptSuggestionOnCommitCharacter : RawValue
  snippetSuggestions : RawValue
  emptySelectionClipboard : RawValue
  wordBasedSuggestions : RawValue
  suggestFontSize : RawValue
  suggestLineHeight : RawValue
  selectionHighlight : RawValue
  codeLens : RawValue
  referenceInfos : RawValue
  folding : RawValue
  matchBrackets : RawValue
  renderWhitespace : RawValue
  renderControlCharacters : RawValue
  renderIndentGuides : RawValue
  renderLineHighlight : RawValue
  useTabStops : RawValue
  dragAndDrop : RawValue
  experimentalScreenReader : RawValue
deriving DecidableEq, Repr

/-! ## External collaborators (font measurement, layout geometry) -/

/-- `FontInfo`: externally measured font metrics, an opaque immutable input
to normalization; only the fields the configuration code reads are kept. -/
structure FontInfo where
  lineHeight : Int
  typicalHalfwidthCharacterWidth : Int
  maxDigitWidth : Int
deriving DecidableEq, Repr

/-- The input record the normalizer passes to
`EditorLayoutProvider.compute` (external Layout Calculator). -/
structure EditorLayoutProviderInput where
  outerWidth : Int
  outerHeight : Int
  showGlyphMargin : Bool
  lineHeight : Int
  showLineNumbers : Bool
  lineNumbersMinChars : Int
  lineNumbersDigitCount : Nat
  lineDecorationsWidth : Int
  typicalHalfwidthCharacterWidth : Int
  maxDigitWidth : Int
  verticalScrollbarWidth : Int
  horizontalScrollbarHeight : Int
  scrollbarArrowSize : Int
  verticalScrollbarHasArrows : Bool
  minimap : Bool
  minimapRenderCharacters : Bool
  minimapMaxColumn : Int
  pixelRatio : Int
deriving DecidableEq, Repr

/-- Modelled from the spec: `LayoutInfo`, the pixel geometry computed by
the external Layout Calculator (`EditorLayoutProvider.compute`, not part of
the sources under verification).  Only the viewport column count — the one
field the configuration code reads back — is modelled; the rest of the
geometry is opaque to this development. -/
structure EditorLayoutInfo where
  viewportColumn : Int
deriving DecidableEq, Repr

/-! ## Internal (fully-resolved) option records from editorCommon -/

/-- `InternalEditorScrollbarOptions` from editorCommon. -/
structure InternalEditorScrollbarOptions where
  vertical : ScrollbarVisibility
  horizontal : ScrollbarVisibility
  arrowSize : Int
  useShadows : Bool
  verticalHasArrows : Bool
  horizontalHasArrows : Bool
  horizontalScrollbarSize : Int
  horizontalSliderSize : Int
  verticalScrollbarSize : Int
  verticalSliderSize : Int
  handleMouseWheel : Bool
  mouseWheelScrollSensitivity : Int
deriving DecidableEq, Repr

/-- `InternalEditorMinimapOptions` from editorCommon. -/
structure InternalEditorMinimapOptions where
  enabled : Bool
  renderCharacters : Bool
  maxColumn : Int
deriving DecidableEq, Repr

/-- `InternalEditorViewOptions` from editorCommon.  The function-valued
`renderCustomLineNumbers` is modelled by the callback's identifier. -/
structure InternalEditorViewOptions where
  theme : RawValue
  canUseTranslate3d : Bool
  disableMonospaceOptimizations : Bool
  experimentalScreenReader : Bool
  rulers : List Int
  ariaLabel : String
  renderLineNumbers : Bool
  renderCustomLineNumbers : Option Nat
  renderRelativeLineNumbers : Bool
  selectOnLineNumbers : Bool
  glyphMargin : Bool
  revealHorizontalRightPadding : Int
  roundedSelection : Bool
  overviewRulerLanes : Int
  cursorBlinking : TextEditorCursorBlinkingStyle
  mouseWheelZoom : Bool
  cursorStyle : TextEditorCursorStyle
  hideCursorInOverviewRuler : Bool
  scrollBeyondLastLine : Bool
  editorClassName : String
  stopRenderingLineAfter : Int
  renderWhitespace : RawValue
  renderControlCharacters : Bool
  renderIndentGuides : Bool
  renderLineHighlight : RawValue
  scrollbar : InternalEditorScrollbarOptions
  minimap : InternalEditorMinimapOptions
  fixedOverflowWidgets : Bool
deriving DecidableEq, Repr

/-- `EditorContribOptions` from editorCommon (fields copied verbatim from
the raw options keep type `RawValue`, exactly as the source forwards them
uncoerced). -/
structure EditorContribOptions where
  selectionClipboard : Bool
  hover : Bool
  contextmenu : Bool
  quickSuggestions : Bool
  quickSuggestionsDelay : Int
  parameterHints : Bool
  iconsInSuggestions : Bool
  formatOnType : Bool
  formatOnPaste : Bool
  suggestOnTriggerCharacters : Bool
  acceptSuggestionOnEnter : Bool
  acceptSuggestionOnCommitCharacter : Bool
  snippetSuggestions : RawValue
  emptySelectionClipboard : RawValue
  wordBasedSuggestions : RawValue
  suggestFontSize : RawValue
  suggestLineHeight : RawValue
  selectionHighlight : Bool
  codeLens : RawValue
  folding : Bool
  matchBrackets : Bool
deriving DecidableEq, Repr

/-- `EditorWrappingInfo` from editorCommon. -/
structure EditorWrappingInfo where
  isViewportWrapping : Bool
  wrappingColumn : Int
  wrappingIndent : WrappingIndent
  wordWrapBreakBeforeCharacters : String
  wordWrapBreakAfterCharacters : String
  wordWrapBreakObtrusiveCharacters : String
deriving DecidableEq, Repr

/-- `InternalEditorOptions` from editorCommon: the immutable configuration
snapshot produced by one normalization pass. -/
structure InternalEditorOptions where
  lineHeight : Int
  readOnly : Bool
  wordSeparators : String
  autoClosingBrackets : Bool
  useTabStops : Bool
  tabFocusMode : Bool
  dragAndDrop : Bool
  layoutInfo : EditorLayoutInfo
  fontInfo : FontInfo
  viewInfo : InternalEditorViewOptions
  wrappingInfo : EditorWrappingInfo
  contribInfo : EditorContribOptions
deriving DecidableEq, Repr

/-! ## The option normalizer (InternalEditorOptionsHelper) -/

/-- Plain JavaScript truthiness `Boolean(value)` (used by the source's bare
`if (opts.folding)` test and the `&&` expression, which — unlike
`toBoolean` — treat the string `'false'` as truthy). -/
def jsTruthy : RawValue → Bool
  | .str s => !(s = "")
  | .bool b => b
  | .num n => !(n = 0)
  | .undef => false
  | .null => false
  | .arr _ => true
  | .func _ => true

/-- JavaScript `a && b`: returns `a` if `a` is falsy, else `b`. -/
def jsAnd (a b : RawValue) : RawValue :=
  if jsTruthy a then b else a

/-- The legacy boolean-to-enum migration the source repeats for
`lineNumbers`, `wordWrap`, `renderWhitespace` and `renderLineHighlight`:
a literal `true` becomes the option's on-equivalent string member and a
literal `false` its off-equivalent member; everything else is untouched. -/
def migrateOnOff (v : RawValue) (onValue offValue : String) : RawValue :=
  if v = .bool true then .str onValue
  else if v = .bool false then .str offValue
  else v

/-- The test `/^\d+(\.\d+)?ch$/.test(s)` from the `lineDecorationsWidth`
branch: one or more digits, an optional fractional part, then `ch`. -/
def matchesChUnit (s : String) : Bool :=
  let cs := s.data
  let ds := cs.takeWhile Char.isDigit
  let rest := cs.dropWhile Char.isDigit
  if ds = [] then false
  else
    match rest with
    | ['c', 'h'] => true
    | '.' :: rest2 =>
      let fs := rest2.takeWhile Char.isDigit
      let rest3 := rest2.dropWhile Char.isDigit
      (!decide (fs = [])) && decide (rest3 = ['c', 'h'])
    | _ => false

/-- `s.substr(0, s.length - 2)`: the string with the trailing `ch` unit
token removed. -/
def dropChUnit (s : String) : String :=
  ⟨s.data.take (s.data.length - 2)⟩

/-- Modelled from the spec: `DefaultConfig.editor.minimap.enabled` from the
defaultConfig module (not part of the sources under verification). -/
def DefaultConfig_minimap_enabled : Bool := false

/-- Modelled from the spec: `DefaultConfig.editor.minimap.renderCharacters`
from the defaultConfig module (not part of the sources under
verification). -/
def DefaultConfig_minimap_renderCharacters : Bool := true

/-- Modelled from the spec: `DefaultConfig.editor.minimap.maxColumn` from
the defaultConfig module (not part of the sources under verification). -/
def DefaultConfig_minimap_maxColumn : Int := 120

/-- `visibilityFromString` (local helper of `_sanitizeScrollbarOpts`):
`'hidden'`/`'visible'` select their visibility, everything else is
`Auto`. -/
def visibilityFromString (visibility : RawValue) : ScrollbarVisibility :=
  if visibility = .str "hidden" then .Hidden
  else if visibility = .str "visible" then .Visible
  else .Auto

/-- `InternalEditorOptionsHelper._sanitizeScrollbarOpts` from
commonEditorConfig.ts. -/
def sanitizeScrollbarOpts (raw : IEditorScrollbarOptions)
    (mouseWheelScrollSensitivity : Int) : InternalEditorScrollbarOptions :=
  let horizontalScrollbarSize := toIntegerWithDefault raw.horizontalScrollbarSize 10
  let verticalScrollbarSize := toIntegerWithDefault raw.verticalScrollbarSize 14
  { vertical := visibilityFromString raw.vertical
    horizontal := visibilityFromString raw.horizontal
    arrowSize := toIntegerWithDefault raw.arrowSize 11
    useShadows := toBooleanWithDefault raw.useShadows true
    verticalHasArrows := toBooleanWithDefault raw.verticalHasArrows false
    horizontalHasArrows := toBooleanWithDefault raw.horizontalHasArrows false
    horizontalScrollbarSize := horizontalScrollbarSize
    horizontalSliderSize := toIntegerWithDefault raw.horizontalSliderSize horizontalScrollbarSize
    verticalScrollbarSize := verticalScrollbarSize
    verticalSliderSize := toIntegerWithDefault raw.verticalSliderSize verticalScrollbarSize
    handleMouseWheel := toBooleanWithDefault raw.handleMouseWheel true
    mouseWheelScrollSensitivity := mouseWheelScrollSensitivity }

/-- `InternalEditorOptionsHelper._sanitizeMinimapOpts` from
commonEditorConfig.ts. -/
def sanitizeMinimapOpts (raw : IEditorMinimapOptions) : InternalEditorMinimapOptions :=
  let maxColumn := toIntegerWithDefault raw.maxColumn DefaultConfig_minimap_maxColumn
  let maxColumn := if maxColumn < 1 then 1 else maxColumn
  { enabled := toBooleanWithDefault raw.enabled DefaultConfig_minimap_enabled
    renderCharacters := toBooleanWithDefault raw.renderCharacters DefaultConfig_minimap_renderCharacters
    maxColumn := maxColumn }

/-- The word-wrap resolution block of
`InternalEditorOptionsHelper.createInternalEditorOptions`
(commonEditorConfig.ts lines 193-232): legacy boolean migration of
`wordWrap`, then priority dispatch — the dominated-by-long-lines flag
forces viewport wrapping; otherwise `'on'`, `'bounded'`,
`'wordWrapColumn'` and the default case resolve as in the source.
Returns `(isViewportWrapping, wrappingColumn)`. -/
def resolveBareWrappingInfo (isDominatedByLongLines : Bool)
    (wordWrapOpt wordWrapColumnOpt : RawValue) (viewportColumn : Int) : Bool × Int :=
  let wordWrapColumn := toInteger wordWrapColumnOpt 1 MAX_SAFE_SMALL_INTEGER
  let wordWrap := migrateOnOff wordWrapOpt "on" "off"
  if isDominatedByLongLines then
    (true, max 1 viewportColumn)
  else if wordWrap = .str "on" then
    (true, max 1 viewportColumn)
  else if wordWrap = .str "bounded" then
    (true, min (max 1 viewportColumn) wordWrapColumn)
  else if wordWrap = .str "wordWrapColumn" then
    (false, wordWrapColumn)
  else
    (false, -1)

/-- `InternalEditorOptionsHelper.createInternalEditorOptions` from
commonEditorConfig.ts — the Option Normalizer.  The external
`EditorLayoutProvider.compute` is passed in as `computeLayout`, and the
source's read of the process-wide `TabFocus` global is made explicit as
the `globals` argument. -/
def createInternalEditorOptions
    (computeLayout : EditorLayoutProviderInput → EditorLayoutInfo)
    (globals : Globals)
    (outerWidth outerHeight : Int)
    (opts : IEditorOptions)
    (fontInfo : FontInfo)
    (editorClassName : String)
    (isDominatedByLongLines : Bool)
    (lineNumbersDigitCount : Nat)
    (canUseTranslate3d : Bool)
    (pixelRatio : Int) : InternalEditorOptions :=
  let stopRenderingLineAfter : Int :=
    if opts.stopRenderingLineAfter ≠ .undef then
      toInteger opts.stopRenderingLineAfter (-1) MAX_SAFE_SMALL_INTEGER
    else
      10000
  let scrollbar := sanitizeScrollbarOpts opts.scrollbar (toFloat opts.mouseWheelScrollSensitivity 1)
  let minimap := sanitizeMinimapOpts opts.minimap
  let glyphMargin := toBoolean opts.glyphMargin
  let lineNumbersMinChars := toInteger opts.lineNumbersMinChars 1 MAX_SAFE_SMALL_INTEGER
  let lineDecorationsWidth : Int :=
    match opts.lineDecorationsWidth with
    | .str s =>
      if matchesChUnit s then
        let multiple := toFloat (.str (dropChUnit s)) 0
        multiple * fontInfo.typicalHalfwidthCharacterWidth
      else
        toInteger (.str s) 0 MAX_SAFE_SMALL_INTEGER
    | v => toInteger v 0 MAX_SAFE_SMALL_INTEGER
  let lineDecorationsWidth :=
    if jsTruthy opts.folding then lineDecorationsWidth + 16 else lineDecorationsWidth
  let lineNumbers := migrateOnOff opts.lineNumbers "on" "off"
  let lineNumbersResolved : Bool × Option Nat × Bool :=
    match lineNumbers with
    | .func id => (true, some id, false)
    | v =>
      if v = .str "relative" then (true, none, true)
      else if v = .str "on" then (true, none, false)
      else (false, none, false)
  let renderLineNumbers := lineNumbersResolved.1
  let renderCustomLineNumbers := lineNumbersResolved.2.1
  let renderRelativeLineNumbers := lineNumbersResolved.2.2
  let layoutInfo := computeLayout
    { outerWidth := outerWidth
      outerHeight := outerHeight
      showGlyphMargin := glyphMargin
      lineHeight := fontInfo.lineHeight
      showLineNumbers := renderLineNumbers
      lineNumbersMinChars := lineNumbersMinChars
      lineNumbersDigitCount := lineNumbersDigitCount
      lineDecorationsWidth := lineDecorationsWidth
      typicalHalfwidthCharacterWidth := fontInfo.typicalHalfwidthCharacterWidth
      maxDigitWidth := fontInfo.maxDigitWidth
      verticalScrollbarWidth := scrollbar.verticalScrollbarSize
      horizontalScrollbarHeight := scrollbar.horizontalScrollbarSize
      scrollbarArrowSize := scrollbar.arrowSize
      verticalScrollbarHasArrows := scrollbar.verticalHasArrows
      minimap := minimap.enabled
      minimapRenderCharacters := minimap.renderCharacters
      minimapMaxColumn := minimap.maxColumn
      pixelRatio := pixelRatio }
  let bareWrappingInfo :=
    resolveBareWrappingInfo isDominatedByLongLines opts.wordWrap opts.wordWrapColumn
      layoutInfo.viewportColumn
  let wrappingInfo : EditorWrappingInfo :=
    { isViewportWrapping := bareWrappingInfo.1
      wrappingColumn := bareWrappingInfo.2
      wrappingIndent := wrappingIndentFromString opts.wrappingIndent
      wordWrapBreakBeforeCharacters := jsToString opts.wordWrapBreakBeforeCharacters
      wordWrapBreakAfterCharacters := jsToString opts.wordWrapBreakAfterCharacters
      wordWrapBreakObtrusiveCharacters := jsToString opts.wordWrapBreakObtrusiveCharacters }
  let readOnly := toBoolean opts.readOnly
  let tabFocusMode := TabFocus_getTabFocusMode globals.tabFocus
  let tabFocusMode := if readOnly then true else tabFocusMode
  let renderWhitespace := migrateOnOff opts.renderWhitespace "boundary" "none"
  let renderLineHighlight := migrateOnOff opts.renderLineHighlight "line" "none"
  let viewInfo : InternalEditorViewOptions :=
    { theme := opts.theme
      canUseTranslate3d := canUseTranslate3d
      disableMonospaceOptimizations :=
        toBoolean opts.disableMonospaceOptimizations || toBoolean opts.fontLigatures
      experimentalScreenReader := toBoolean opts.experimentalScreenReader
      rulers := toSortedIntegerArray opts.rulers
      ariaLabel := jsToString opts.ariaLabel
      renderLineNumbers := renderLineNumbers
      renderCustomLineNumbers := renderCustomLineNumbers
      renderRelativeLineNumbers := renderRelativeLineNumbers
      selectOnLineNumbers := toBoolean opts.selectOnLineNumbers
      glyphMargin := glyphMargin
      revealHorizontalRightPadding := toInteger opts.revealHorizontalRightPadding 0 MAX_SAFE_SMALL_INTEGER
      roundedSelection := toBoolean opts.roundedSelection
      overviewRulerLanes := toInteger opts.overviewRulerLanes 0 3
      cursorBlinking := cursorBlinkingStyleFromString opts.cursorBlinking
      mouseWheelZoom := toBoolean opts.mouseWheelZoom
      cursorStyle := cursorStyleFromString opts.cursorStyle
      hideCursorInOverviewRuler := toBoolean opts.hideCursorInOverviewRuler
      scrollBeyondLastLine := toBoolean opts.scrollBeyondLastLine
      editorClassName := editorClassName
      stopRenderingLineAfter := stopRenderingLineAfter
      renderWhitespace := renderWhitespace
      renderControlCharacters := toBoolean opts.renderControlCharacters
      renderIndentGuides := toBoolean opts.renderIndentGuides
      renderLineHighlight := renderLineHighlight
      scrollbar := scrollbar
      minimap := minimap
      fixedOverflowWidgets := toBoolean opts.fixedOverflowWidgets }
  let contribInfo : EditorContribOptions :=
    { selectionClipboard := toBoolean opts.selectionClipboard
      hover := toBoolean opts.hover
      contextmenu := toBoolean opts.contextmenu
      quickSuggestions := toBoolean opts.quickSuggestions
      quickSuggestionsDelay := toIntegerDefault opts.quickSuggestionsDelay
      parameterHints := toBoolean opts.parameterHints
      iconsInSuggestions := toBoolean opts.iconsInSuggestions
      formatOnType := toBoolean opts.formatOnType
      formatOnPaste := toBoolean opts.formatOnPaste
      suggestOnTriggerCharacters := toBoolean opts.suggestOnTriggerCharacters
      acceptSuggestionOnEnter := toBoolean opts.acceptSuggestionOnEnter
      acceptSuggestionOnCommitCharacter := toBoolean opts.acceptSuggestionOnCommitCharacter
      snippetSuggestions := opts.snippetSuggestions
      emptySelectionClipboard := opts.emptySelectionClipboard
      wordBasedSuggestions := opts.wordBasedSuggestions
      suggestFontSize := opts.suggestFontSize
      suggestLineHeight := opts.suggestLineHeight
      selectionHighlight := toBoolean opts.selectionHighlight
      codeLens := jsAnd opts.referenceInfos opts.codeLens
      folding := toBoolean opts.folding
      matchBrackets := toBoolean opts.matchBrackets }
  { lineHeight := fontInfo.lineHeight
    readOnly := readOnly
    wordSeparators := jsToString opts.wordSeparators
    autoClosingBrackets := toBoolean opts.autoClosingBrackets
    useTabStops := toBoolean opts.useTabStops
    tabFocusMode := tabFocusMode
    dragAndDrop := toBoolean opts.dragAndDrop
    layoutInfo := layoutInfo
    fontInfo := fontInfo
    viewInfo := viewInfo
    wrappingInfo := wrappingInfo
    contribInfo := contribInfo }

/-! ## Configuration snapshot store (CommonEditorConfiguration) -/

/-- Modelled from the spec: the `ChangeDelta`
(`editorCommon.IConfigurationChangedEvent`, produced by
`InternalEditorOptions.createChangeEvent`, which lives outside the sources
under verification) — "a mapping from each top-level/group name to a
boolean indicating whether that group differs between two consecutive
snapshots". -/
structure IConfigurationChangedEvent where
  lineHeight : Bool
  readOnly : Bool
  wordSeparators : Bool
  autoClosingBrackets : Bool
  useTabStops : Bool
  tabFocusMode : Bool
  dragAndDrop : Bool
  layoutInfo : Bool
  fontInfo : Bool
  viewInfo : Bool
  wrappingInfo : Bool
  contribInfo : Bool
deriving DecidableEq, Repr

/-- Modelled from the spec: `InternalEditorOptions.createChangeEvent`
(editorCommon, outside the sources under verification) — "produced by
structural field-by-field comparison" of two consecutive snapshots, one
boolean per top-level group. -/
def createChangeEvent (a b : InternalEditorOptions) : IConfigurationChangedEvent :=
  { lineHeight := decide (a.lineHeight ≠ b.lineHeight)
    readOnly := decide (a.readOnly ≠ b.readOnly)
    wordSeparators := decide (a.wordSeparators ≠ b.wordSeparators)
    autoClosingBrackets := decide (a.autoClosingBrackets ≠ b.autoClosingBrackets)
    useTabStops := decide (a.useTabStops ≠ b.useTabStops)
    tabFocusMode := decide (a.tabFocusMode ≠ b.tabFocusMode)
    dragAndDrop := decide (a.dragAndDrop ≠ b.dragAndDrop)
    layoutInfo := decide (a.layoutInfo ≠ b.layoutInfo)
    fontInfo := decide (a.fontInfo ≠ b.fontInfo)
    viewInfo := decide (a.viewInfo ≠ b.viewInfo)
    wrappingInfo := decide (a.wrappingInfo ≠ b.wrappingInfo)
    contribInfo := decide (a.contribInfo ≠ b.contribInfo) }

/-- Modelled from the spec: `InternalEditorOptions.equals` (editorCommon,
outside the sources under verification) — "exact structural equality
against the current snapshot".  On the immutable snapshot values of this
embedding that is decidable equality. -/
def snapshotEquals (a b : InternalEditorOptions) : Bool :=
  decide (a = b)

/-- Modelled from the spec: `InternalEditorOptions.clone` (editorCommon,
outside the sources under verification) — a deep copy; on the immutable
values of this embedding a clone is the value itself. -/
def snapshotClone (a : InternalEditorOptions) : InternalEditorOptions :=
  a

/-- The host-supplied collaborators of a `CommonEditorConfiguration`
instance: the element-size observer and the abstract methods implemented
by the concrete subclass, plus the external layout calculator. -/
structure ConfigEnv where
  outerWidth : Int
  outerHeight : Int
  pixelRatio : Int
  canUseTranslate3d : Bool
  getEditorClassName : RawValue → Bool → String
  readConfiguration : IEditorOptions → FontInfo
  computeLayout : EditorLayoutProviderInput → EditorLayoutInfo

/-- The mutable fields of a `CommonEditorConfiguration` instance. -/
structure ConfigState where
  rawOptions : IEditorOptions
  isDominatedByLongLines : Bool
  lineNumbersDigitCount : Nat
  editor : InternalEditorOptions
  editorClone : InternalEditorOptions

/-- `CommonEditorConfiguration._computeInternalOptions` from
commonEditorConfig.ts: resolve the editor class name and the
`disableTranslate3d` override, measure the font, and run the
normalizer. -/
def computeInternalOptions (env : ConfigEnv) (globals : Globals)
    (s : ConfigState) : InternalEditorOptions :=
  let opts := s.rawOptions
  let editorClassName := env.getEditorClassName opts.theme (toBoolean opts.fontLigatures)
  let disableTranslate3d := toBoolean opts.disableTranslate3d
  let canUseTranslate3d := env.canUseTranslate3d
  let canUseTranslate3d := if disableTranslate3d then false else canUseTranslate3d
  createInternalEditorOptions env.computeLayout globals
    env.outerWidth env.outerHeight opts (env.readConfiguration opts) editorClassName
    s.isDominatedByLongLines s.lineNumbersDigitCount canUseTranslate3d env.pixelRatio

/-- `CommonEditorConfiguration._setOptions` from commonEditorConfig.ts:
if the newly computed snapshot is structurally equal to the current one,
do nothing and fire no event; otherwise build the change event against the
old snapshot, install the new snapshot and its clone, and fire. -/
def setOptions (s : ConfigState) (newOptions : InternalEditorOptions) :
    ConfigState × Option IConfigurationChangedEvent :=
  if snapshotEquals s.editor newOptions then
    (s, none)
  else
    let changeEvent := createChangeEvent s.editor newOptions
    let s := { s with editor := newOptions }
    let s := { s with editorClone := snapshotClone s.editor }
    (s, some changeEvent)

/-- `CommonEditorConfiguration._recomputeOptions` from
commonEditorConfig.ts. -/
def recomputeOptions (env : ConfigEnv) (globals : Globals) (s : ConfigState) :
    ConfigState × Option IConfigurationChangedEvent :=
  setOptions s (computeInternalOptions env globals s)

/-- The combined state of the process-wide globals and one snapshot-store
instance. -/
structure SysState where
  globals : Globals
  config : ConfigState

/-- One recomputation trigger processed by the snapshot store, at the level
of the combined system state.  The store only reads the globals — no
setter of a shared toggle is called anywhere on this path — so the
`globals` component is passed through unchanged. -/
def recomputePass (env : ConfigEnv) (sys : SysState) :
    SysState × Option IConfigurationChangedEvent :=
  let r := recomputeOptions env sys.globals sys.config
  ({ sys with config := r.1 }, r.2)

/-- The loop of `CommonEditorConfiguration.digitCount`
(`while (n) { n = Math.floor(n / 10); r++; }`), embedded with explicit
fuel so that it computes by structural recursion; `digitCount_spec` shows
`n` itself is always enough fuel. -/
def digitCountLoop : Nat → Nat → Nat → Nat
  | 0, _, r => r
  | fuel + 1, n, r => if n = 0 then r else digitCountLoop fuel (n / 10) (r + 1)

/-- `CommonEditorConfiguration.digitCount` from commonEditorConfig.ts:
repeated flooring division by 10, then `return r ? r : 1`. -/
def digitCount (n : Nat) : Nat :=
  let r := digitCountLoop n n 0
  if r = 0 then 1 else r

/-- One iteration of the `digitCount` loop body on an arbitrary (possibly
negative) JavaScript integer: `n = Math.floor(n / 10)`, i.e. flooring
division. -/
def digitCountStep (n : Int) : Int :=
  Int.fdiv n 10

/-- `CommonEditorConfiguration.setMaxLineNumber` from
commonEditorConfig.ts.  The third component records whether the call went
past the digit-count guard and recomputed (instrumentation making the
"triggers a recomputation" observable explicit; the source runs
`_recomputeOptions` exactly when it is `true`). -/
def setMaxLineNumber (env : ConfigEnv) (globals : Globals) (s : ConfigState)
    (maxLineNumber : Nat) : ConfigState × Option IConfigurationChangedEvent × Bool :=
  let newDigitCount := digitCount maxLineNumber
  if s.lineNumbersDigitCount = newDigitCount then
    (s, none, false)
  else
    let s := { s with lineNumbersDigitCount := newDigitCount }
    let r := recomputeOptions env globals s
    (r.1, r.2, true)

example : digitCount 0 = 1 := by decide
example : digitCount 9 = 1 := by decide
example : digitCount 10 = 2 := by decide
example : digitCount 12345 = 5 := by decide

/-! ## Concrete fixtures used by witnesses and counterexamples -/

/-- A raw options record with every option absent (the merge base clamps
everything through the coercers' defaults, so absence exercises the
fallback paths). -/
def sampleOpts : IEditorOptions :=
  { theme := .undef, ariaLabel := .undef, rulers := .undef, wordSeparators := .undef
    selectionClipboard := .undef, lineNumbers := .undef, selectOnLineNumbers := .undef
    lineNumbersMinChars := .undef, glyphMargin := .undef, lineDecorationsWidth := .undef
    revealHorizontalRightPadding := .undef, roundedSelection := .undef, readOnly := .undef
    scrollbar := emptyScrollbarOpts, minimap := emptyMinimapOpts
    fixedOverflowWidgets := .undef, overviewRulerLanes := .undef, cursorBlinking := .undef
    mouseWheelZoom := .undef, cursorStyle := .undef, fontLigatures := .undef
    disableTranslate3d := .undef, disableMonospaceOptimizations := .undef
    hideCursorInOverviewRuler := .undef, scrollBeyondLastLine := .undef
    wordWrap := .undef, wordWrapColumn := .undef, wrappingIndent := .undef
    wordWrapBreakBeforeCharacters := .undef, wordWrapBreakAfterCharacters := .undef
    wordWrapBreakObtrusiveCharacters := .undef, stopRenderingLineAfter := .undef
    hover := .undef, contextmenu := .undef, mouseWheelScrollSensitivity := .undef
    quickSuggestions := .undef, quickSuggestionsDelay := .undef, parameterHints := .undef
    iconsInSuggestions := .undef, autoClosingBrackets := .undef, formatOnType := .undef
    formatOnPaste := .undef, suggestOnTriggerCharacters := .undef
    acceptSuggestionOnEnter := .undef, acceptSuggestionOnCommitCharacter := .undef
    snippetSuggestions := .undef, emptySelectionClipboard := .undef
    wordBasedSuggestions := .undef, suggestFontSize := .undef, suggestLineHeight := .undef
    selectionHighlight := .undef, codeLens := .undef, referenceInfos := .undef
    folding := .undef, matchBrackets := .undef, renderWhitespace := .undef
    renderControlCharacters := .undef, renderIndentGuides := .undef
    renderLineHighlight := .undef, useTabStops := .undef, dragAndDrop := .undef
    experimentalScreenReader := .undef }

/-- Concrete font metrics. -/
def sampleFontInfo : FontInfo :=
  { lineHeight := 18, typicalHalfwidthCharacterWidth := 7, maxDigitWidth := 7 }

/-- A concrete external layout calculator whose geometry yields a viewport
of 120 columns. -/
def sampleLayout : EditorLayoutProviderInput → EditorLayoutInfo :=
  fun _ => { viewportColumn := 120 }

/-- Globals with both shared toggles in their construction-time state. -/
def sampleGlobals : Globals :=
  { tabFocus := TabFocus_initialState, screenReader := GlobalScreenReaderNVDA_initialState }

/-- Globals whose tab-focus toggle currently holds `true`. -/
def sampleGlobalsTabFocusOn : Globals :=
  { tabFocus := { value := true, subscribers := [] }
    screenReader := GlobalScreenReaderNVDA_initialState }

/-- A concrete host environment. -/
def sampleEnv : ConfigEnv :=
  { outerWidth := 800, outerHeight := 600, pixelRatio := 1, canUseTranslate3d := true
    getEditorClassName := fun _ _ => "monaco-editor"
    readConfiguration := fun _ => sampleFontInfo
    computeLayout := sampleLayout }

/-- The snapshot the normalizer computes from the all-absent options. -/
def sampleSnapshot : InternalEditorOptions :=
  createInternalEditorOptions sampleLayout sampleGlobals 800 600 sampleOpts sampleFontInfo
    "monaco-editor" false 1 true 1

/-- `sampleOpts` with `readOnly: true`. -/
def sampleOptsReadOnly : IEditorOptions :=
  { sampleOpts with readOnly := .bool true }

/-- The snapshot computed from `sampleOptsReadOnly`; it differs from
`sampleSnapshot` (in the `readOnly` and `tabFocusMode` fields, among
others). -/
def sampleSnapshotReadOnly : InternalEditorOptions :=
  createInternalEditorOptions sampleLayout sampleGlobals 800 600 sampleOptsReadOnly
    sampleFontInfo "monaco-editor" false 1 true 1

/-- A concrete snapshot-store state holding `sampleSnapshot`. -/
def sampleState : ConfigState :=
  { rawOptions := sampleOpts, isDominatedByLongLines := false, lineNumbersDigitCount := 1
    editor := sampleSnapshot, editorClone := sampleSnapshot }

/-- The combined system state of `sampleGlobals` and `sampleState`, with the
raw options set read-only. -/
def sampleSysReadOnly : SysState :=
  { globals := sampleGlobals
    config := { sampleState with rawOptions := sampleOptsReadOnly } }

/-! ## Helper lemmas -/

/-- `n` units of fuel always suffice for the `digitCount` loop, which then
computes `r` plus the decimal digit count of `n` (0 digits for `n = 0`). -/
theorem digitCountLoop_spec (fuel : Nat) : ∀ n r : Nat, n ≤ fuel →
    digitCountLoop fuel n r = r + (if n = 0 then 0 else Nat.log 10 n + 1) := by
  induction fuel with
  | zero =>
    intro n r hn
    have h0 : n = 0 := Nat.le_zero.mp hn
    subst h0
    simp [digitCountLoop]
  | succ fuel ih =>
    intro n r hn
    by_cases h0 : n = 0
    · subst h0
      simp [digitCountLoop]
    · have hlt : n / 10 < n := Nat.div_lt_self (Nat.pos_of_ne_zero h0) (by norm_num)
      have hle : n / 10 ≤ fuel := Nat.lt_succ_iff.mp (lt_of_lt_of_le hlt hn)
      rw [digitCountLoop, if_neg h0, ih (n / 10) (r + 1) hle]
      by_cases h10 : n < 10
      · have hdiv : n / 10 = 0 := Nat.div_eq_of_lt h10
        have hlog : Nat.log 10 n = 0 := Nat.log_eq_zero_iff.mpr (Or.inl h10)
        simp [hdiv, hlog, h0]
      · have hge : 10 ≤ n := le_of_not_lt h10
        have hdivne : n / 10 ≠ 0 := Nat.pos_iff_ne_zero.mp (Nat.div_pos hge (by norm_num))
        have hlogpos : 0 < Nat.log 10 n := Nat.log_pos (by norm_num) hge
        rw [if_neg hdivne, if_neg h0, Nat.log_div_base]
        omega

/-- The digit-count value: 1 for 0, `log10 n + 1` otherwise. -/
theorem digitCount_eq (n : Nat) :
    digitCount n = if n = 0 then 1 else Nat.log 10 n + 1 := by
  by_cases h0 : n = 0
  · subst h0; simp [digitCount, digitCountLoop]
  · have h := digitCountLoop_spec n n 0 le_rfl
    rw [if_neg h0] at h
    simp [digitCount, h, h0]

/-- One loop step of the JavaScript `digitCount` on a negative integer
stays negative: `Math.floor(n / 10) < 0` whenever `n < 0`. -/
theorem digitCountStep_neg (m : Int) (hm : m < 0) : digitCountStep m < 0 := by
  match m with
  | .ofNat k => exact absurd hm (not_lt.mpr (Int.ofNat_nonneg k))
  | .negSucc k =>
    show Int.fdiv (Int.negSucc k) 10 < 0
    have h : Int.fdiv (Int.negSucc k) 10 = Int.negSucc (k / 10) := rfl
    rw [h]
    exact Int.negSucc_lt_zero _

/-- 32-bit truncation is the identity on the 32-bit range. -/
theorem toInt32_eq_self (x : Int) (h1 : -(2 ^ 31) ≤ x) (h2 : x < 2 ^ 31) :
    toInt32 x = x := by
  unfold toInt32
  omega

/-! ## Claim theorems -/

/-- C10: for every nonnegative integer `n` the digit-count helper used by
`setMaxLineNumber` terminates and returns the number of base-10 digits of
`n` — 1 for `n = 0` and `floor(log10 n) + 1` for `n ≥ 1` — while on a
negative integer the loop value stays negative forever (every iterate of
the loop body is negative), so the loop is well-founded only under the
precondition `n ≥ 0`. -/
theorem digitCount_spec :
    digitCount 0 = 1 ∧
    (∀ n : Nat, 1 ≤ n → digitCount n = Nat.log 10 n + 1) ∧
    (∀ n : Nat, 1 ≤ n → digitCount n = (Nat.digits 10 n).length) ∧
    (∀ m : Int, m < 0 → ∀ k : Nat, digitCountStep^[k] m < 0) := by
  refine ⟨by decide, ?_, ?_, ?_⟩
  · intro n hn
    rw [digitCount_eq, if_neg (by omega)]
  · intro n hn
    rw [digitCount_eq, if_neg (by omega), Nat.digits_len 10 n (by norm_num) (by omega)]
  · intro m hm k
    induction k with
    | zero => simpa using hm
    | succ k ih =>
      rw [Function.iterate_succ_apply']
      exact digitCountStep_neg _ ih

/-- Witness for C10 at concrete inputs. -/
theorem digitCount_spec_witness :
    digitCount 123 = Nat.log 10 123 + 1 ∧
    digitCount 123 = (Nat.digits 10 123).length ∧
    digitCountStep^[3] (-7) < 0 :=
  ⟨digitCount_spec.2.1 123 (by decide),
   digitCount_spec.2.2.1 123 (by decide),
   digitCount_spec.2.2.2 (-7) (by decide) 3⟩

/-- C7: `setMaxLineNumber(n)` recomputes (and can hence emit a change
event) exactly when the decimal digit count of `n` differs from the stored
digit count; an unchanged digit count is a complete no-op (same state, no
event, no recomputation).  From a single-digit state, `setMaxLineNumber 5`
and `setMaxLineNumber 9` are no-ops while `setMaxLineNumber 10`
recomputes. -/
theorem setMaxLineNumber_spec (env : ConfigEnv) (globals : Globals) (s : ConfigState) :
    (∀ n : Nat, (setMaxLineNumber env globals s n).2.2 = true ↔
        digitCount n ≠ s.lineNumbersDigitCount) ∧
    (∀ n : Nat, digitCount n = s.lineNumbersDigitCount →
        setMaxLineNumber env globals s n = (s, none, false)) ∧
    (s.lineNumbersDigitCount = 1 →
        setMaxLineNumber env globals s 5 = (s, none, false) ∧
        setMaxLineNumber env globals (setMaxLineNumber env globals s 5).1 9 = (s, none, false) ∧
        (setMaxLineNumber env globals s 10).2.2 = true) := by
  have hnoop : ∀ n : Nat, digitCount n = s.lineNumbersDigitCount →
      setMaxLineNumber env globals s n = (s, none, false) := by
    intro n hn
    unfold setMaxLineNumber
    rw [if_pos hn.symm]
  refine ⟨?_, hnoop, ?_⟩
  · intro n
    unfold setMaxLineNumber
    by_cases h : s.lineNumbersDigitCount = digitCount n
    · simp [h]
    · simp [h]
      exact fun hc => h hc.symm
  · intro h1
    have h5 : digitCount 5 = s.lineNumbersDigitCount := by rw [h1]; decide
    have h9 : digitCount 9 = s.lineNumbersDigitCount := by rw [h1]; decide
    refine ⟨hnoop 5 h5, ?_, ?_⟩
    · rw [hnoop 5 h5]
      exact hnoop 9 h9
    · unfold setMaxLineNumber
      rw [if_neg (by rw [h1]; decide)]

/-- Witness for C7 on the concrete fixture state (digit count 1). -/
theorem setMaxLineNumber_spec_witness :
    setMaxLineNumber sampleEnv sampleGlobals sampleState 5 = (sampleState, none, false) ∧
    setMaxLineNumber sampleEnv sampleGlobals
      (setMaxLineNumber sampleEnv sampleGlobals sampleState 5).1 9 = (sampleState, none, false) ∧
    (setMaxLineNumber sampleEnv sampleGlobals sampleState 10).2.2 = true :=
  (setMaxLineNumber_spec sampleEnv sampleGlobals sampleState).2.2 rfl

/-- C6: both process-wide shared toggles start at `false`; `set` with the
current value changes nothing and notifies nobody, `set` with a different
value stores it and synchronously notifies every current subscriber
exactly once with the new value (after which `get` returns it); hence two
successive `set true` calls notify exactly once. -/
theorem sharedToggle_spec :
    (TabFocus_initialState.value = false ∧ GlobalScreenReaderNVDA_initialState.value = false) ∧
    (∀ (s : SharedToggleState) (v : Bool), v = s.value →
        TabFocus_setTabFocusMode s v = (s, []) ∧
        GlobalScreenReaderNVDA_setValue s v = (s, [])) ∧
    (∀ (s : SharedToggleState) (v : Bool), v ≠ s.value →
        TabFocus_setTabFocusMode s v =
          ({ value := v, subscribers := s.subscribers }, fireToSubscribers s.subscribers v) ∧
        TabFocus_getTabFocusMode (TabFocus_setTabFocusMode s v).1 = v ∧
        GlobalScreenReaderNVDA_setValue s v =
          ({ value := v, subscribers := s.subscribers }, fireToSubscribers s.subscribers v) ∧
        GlobalScreenReaderNVDA_getValue (GlobalScreenReaderNVDA_setValue s v).1 = v) ∧
    (∀ (s : SharedToggleState) (v : Bool) (id : Nat),
        (fireToSubscribers s.subscribers v).count (id, v) = s.subscribers.count id) ∧
    (∀ s : SharedToggleState, s.value = false →
        (TabFocus_setTabFocusMode s true).2 = fireToSubscribers s.subscribers true ∧
        TabFocus_setTabFocusMode (TabFocus_setTabFocusMode s true).1 true =
          ((TabFocus_setTabFocusMode s true).1, []) ∧
        (GlobalScreenReaderNVDA_setValue s true).2 = fireToSubscribers s.subscribers true ∧
        GlobalScreenReaderNVDA_setValue (GlobalScreenReaderNVDA_setValue s true).1 true =
          ((GlobalScreenReaderNVDA_setValue s true).1, [])) := by
  refine ⟨⟨rfl, rfl⟩, ?_, ?_, ?_, ?_⟩
  · intro s v hv
    constructor
    · unfold TabFocus_setTabFocusMode
      rw [if_pos hv.symm]
    · unfold GlobalScreenReaderNVDA_setValue
      rw [if_pos hv.symm]
  · intro s v hv
    have hne : ¬ (s.value = v) := fun h => hv h.symm
    refine ⟨?_, ?_, ?_, ?_⟩
    · unfold TabFocus_setTabFocusMode
      rw [if_neg hne]
    · unfold TabFocus_setTabFocusMode TabFocus_getTabFocusMode
      rw [if_neg hne]
    · unfold GlobalScreenReaderNVDA_setValue
      rw [if_neg hne]
    · unfold GlobalScreenReaderNVDA_setValue GlobalScreenReaderNVDA_getValue
      rw [if_neg hne]
  · intro s v id
    unfold fireToSubscribers
    induction s.subscribers with
    | nil => rfl
    | cons a as ih =>
      simp only [List.map_cons, List.count_cons, ih]
      by_cases h : a = id
      · subst h; simp
      · simp [h, fun hh : id = a => h hh.symm]
  · intro s hs
    have hne : ¬ (s.value = true) := by rw [hs]; decide
    have hfirst : TabFocus_setTabFocusMode s true =
        ({ value := true, subscribers := s.subscribers }, fireToSubscribers s.subscribers true) := by
      unfold TabFocus_setTabFocusMode
      rw [if_neg hne]
    have hfirst' : GlobalScreenReaderNVDA_setValue s true =
        ({ value := true, subscribers := s.subscribers }, fireToSubscribers s.subscribers true) := by
      unfold GlobalScreenReaderNVDA_setValue
      rw [if_neg hne]
    refine ⟨by rw [hfirst], ?_, by rw [hfirst'], ?_⟩
    · rw [hfirst]
      unfold TabFocus_setTabFocusMode
      rw [if_pos rfl]
    · rw [hfirst']
      unfold GlobalScreenReaderNVDA_setValue
      rw [if_pos rfl]

/-- Witness for C6 on a concrete toggle state with two subscribers. -/
theorem sharedToggle_spec_witness :
    TabFocus_setTabFocusMode { value := false, subscribers := [7, 8] } true =
      ({ value := true, subscribers := [7, 8] }, [(7, true), (8, true)]) ∧
    TabFocus_setTabFocusMode { value := true, subscribers := [7, 8] } true =
      ({ value := true, subscribers := [7, 8] }, []) ∧
    [(7, true), (8, true)].count (7, true) = [7, 8].count 7 :=
  ⟨(sharedToggle_spec.2.2.1 { value := false, subscribers := [7, 8] } true (by decide)).1,
   (sharedToggle_spec.2.1 { value := true, subscribers := [7, 8] } true rfl).1,
   sharedToggle_spec.2.2.2.1 { value := false, subscribers := [7, 8] } true 7⟩

/-- C4: `toInteger(value, min, max)` parses base-10, substitutes 0 on parse
failure, clamps with the `min` bound applied before the `max` bound (so the
`max` bound wins when `min` exceeds `max`), and truncates to 32 bits; the
default bounds are the safe-small-integer range; in particular
`toInteger("9999999999999999", 0, 100) = 100` and
`toInteger("abc", 5, 10) = 5`. -/
theorem toInteger_spec :
    (∀ (v : RawValue) (mn mx : Int), jsParseInt v = none →
        toInteger v mn mx = toInt32 (min mx (max mn 0))) ∧
    (∀ (v : RawValue) (mn mx x : Int), jsParseInt v = some x →
        mn ≤ x → x ≤ mx → -(2 ^ 31) ≤ x → x < 2 ^ 31 →
        toInteger v mn mx = x) ∧
    (∀ (v : RawValue) (mn mx : Int), mx < mn → toInteger v mn mx = toInt32 mx) ∧
    (∀ v : RawValue, toIntegerDefault v =
        toInteger v MIN_SAFE_SMALL_INTEGER MAX_SAFE_SMALL_INTEGER) ∧
    toInteger (.str "9999999999999999") 0 100 = 100 ∧
    toInteger (.str "abc") 5 10 = 5 := by
  refine ⟨?_, ?_, ?_, fun _ => rfl, by decide, by decide⟩
  · intro v mn mx hp
    unfold toInteger
    rw [hp]
  · intro v mn mx x hp hmn hmx h1 h2
    simp only [toInteger, hp]
    rw [max_eq_right hmn, min_eq_right hmx]
    exact toInt32_eq_self x h1 h2
  · intro v mn mx hlt
    simp only [toInteger]
    rw [min_eq_left (le_trans (le_of_lt hlt) (le_max_left _ _))]

/-- Witness for C4 at concrete inputs (parse success in range, parse
failure, and inverted bounds where the max bound wins). -/
theorem toInteger_spec_witness :
    toInteger (.str "42") 0 100 = 42 ∧
    toInteger (.str "abc") 5 10 = toInt32 (min 10 (max 5 0)) ∧
    toInteger (.str "7") 10 5 = toInt32 5 :=
  ⟨toInteger_spec.2.1 (.str "42") 0 100 42 rfl (by decide) (by decide) (by decide) (by decide),
   toInteger_spec.1 (.str "abc") 5 10 rfl,
   toInteger_spec.2.2.1 (.str "7") 10 5 (by decide)⟩

/-- C3 counterexample: the claim asserts the result is in ascending numeric
order for every array input, but `toSortedIntegerArray([10, 9])` is
`[10, 9]` (the JavaScript parameterless `sort()` compares the decimal
strings `"10" < "9"`), which is not numerically ascending. -/
theorem toSortedIntegerArray_not_numeric :
    toSortedIntegerArray (.arr [.num 10, .num 9]) = [10, 9] ∧
    ¬ (toSortedIntegerArray (.arr [.num 10, .num 9])).Sorted (· ≤ ·) := by
  constructor
  · decide
  · intro h
    have h10 : (10 : Int) ≤ 9 := by
      have he : toSortedIntegerArray (.arr [.num 10, .num 9]) = [10, 9] := by decide
      rw [he] at h
      exact List.rel_of_sorted_cons h 9 (by decide)
    exact absurd h10 (by decide)

/-- C3 (amended): `toSortedIntegerArray` returns `[]` on every non-array
input; on an array it returns the elements coerced through `toInteger`
with default bounds, arranged in the order of JavaScript's parameterless
`sort()` — ascending in the string comparison of their decimal
representations, not in numeric order (a permutation of the coerced
elements, sorted by `jsDefaultSortLe`); on `[3, "1", 2]`, where string and
numeric order coincide, the result is `[1, 2, 3]`. -/
theorem toSortedIntegerArray_spec :
    (∀ v : RawValue, (∀ xs : List RawScalar, v ≠ .arr xs) → toSortedIntegerArray v = []) ∧
    (∀ xs : List RawScalar,
        (toSortedIntegerArray (.arr xs)).Perm
          (xs.map fun el => toIntegerDefault el.toValue) ∧
        (toSortedIntegerArray (.arr xs)).Sorted jsDefaultSortLe) ∧
    toSortedIntegerArray (.arr [.num 3, .str "1", .num 2]) = [1, 2, 3] := by
  refine ⟨?_, ?_, by decide⟩
  · intro v hv
    match v with
    | .undef => rfl
    | .null => rfl
    | .bool _ => rfl
    | .num _ => rfl
    | .str _ => rfl
    | .func _ => rfl
    | .arr xs => exact absurd rfl (hv xs)
  · intro xs
    constructor
    · exact List.perm_insertionSort jsDefaultSortLe _
    · exact List.sorted_insertionSort jsDefaultSortLe _

/-- Witness for C3 at concrete inputs: a non-array input and a concrete
array. -/
theorem toSortedIntegerArray_spec_witness :
    toSortedIntegerArray (.num 5) = [] ∧
    (toSortedIntegerArray (.arr [.num 10, .num 9])).Perm
      ([.num 10, .num 9].map fun el => toIntegerDefault (RawScalar.toValue el)) ∧
    (toSortedIntegerArray (.arr [.num 10, .num 9])).Sorted jsDefaultSortLe :=
  ⟨toSortedIntegerArray_spec.1 (.num 5) (fun _ h => RawValue.noConfusion h),
   (toSortedIntegerArray_spec.2.1 [.num 10, .num 9]).1,
   (toSortedIntegerArray_spec.2.1 [.num 10, .num 9]).2⟩

/-- C2: the word-wrap resolution of a normalization pass dispatches in
priority order — the dominated-by-long-lines flag forces viewport-width
wrapping at the computed viewport column regardless of the configured
mode; otherwise the legacy-migrated mode `'on'` gives viewport wrapping at
the viewport column, `'bounded'` viewport wrapping at the minimum of the
viewport column and the coerced `wordWrapColumn`, `'wordWrapColumn'`
fixed-column wrapping at the coerced column independent of the viewport,
and `'off'` or any other value no wrapping with the sentinel column
`-1`. -/
theorem resolveBareWrappingInfo_spec (dom : Bool) (ww wwc : RawValue) (vc w : Int)
    (hvc : 1 ≤ vc) (hw : toInteger wwc 1 MAX_SAFE_SMALL_INTEGER = w) :
    (dom = true → resolveBareWrappingInfo dom ww wwc vc = (true, vc)) ∧
    (dom = false → migrateOnOff ww "on" "off" = .str "on" →
        resolveBareWrappingInfo dom ww wwc vc = (true, vc)) ∧
    (dom = false → migrateOnOff ww "on" "off" = .str "bounded" →
        resolveBareWrappingInfo dom ww wwc vc = (true, min vc w)) ∧
    (dom = false → migrateOnOff ww "on" "off" = .str "wordWrapColumn" →
        resolveBareWrappingInfo dom ww wwc vc = (false, w)) ∧
    (dom = false → migrateOnOff ww "on" "off" ≠ .str "on" →
        migrateOnOff ww "on" "off" ≠ .str "bounded" →
        migrateOnOff ww "on" "off" ≠ .str "wordWrapColumn" →
        resolveBareWrappingInfo dom ww wwc vc = (false, -1)) := by
  have hmax : max 1 vc = vc := max_eq_right hvc
  refine ⟨?_, ?_, ?_, ?_, ?_⟩
  · intro hdom
    subst hdom
    simp [resolveBareWrappingInfo, hmax]
  · intro hdom hmig
    subst hdom
    simp [resolveBareWrappingInfo, hmig, hmax]
  · intro hdom hmig
    subst hdom
    simp [resolveBareWrappingInfo, hmig, hmax, hw]
  · intro hdom hmig
    subst hdom
    simp [resolveBareWrappingInfo, hmig, hw]
  · intro hdom h1 h2 h3
    subst hdom
    simp [resolveBareWrappingInfo, h1, h2, h3]

/-- Witness for C2: the spec's end-to-end example (`wordWrap: 'bounded'`,
`wordWrapColumn: 80`, viewport column 120 resolves to column 80), the
long-line override with `wordWrap: 'off'`, the fixed-column and disabled
modes, and the corresponding wrapping info of a full normalization pass
under the concrete 120-column layout. -/
theorem resolveBareWrappingInfo_spec_witness :
    resolveBareWrappingInfo false (.str "bounded") (.num 80) 120 = (true, min 120 80) ∧
    resolveBareWrappingInfo true (.str "off") (.num 80) 120 = (true, 120) ∧
    resolveBareWrappingInfo false (.str "wordWrapColumn") (.num 80) 120 = (false, 80) ∧
    resolveBareWrappingInfo false (.str "off") (.num 80) 120 = (false, -1) ∧
    (createInternalEditorOptions sampleLayout sampleGlobals 800 600
        { sampleOpts with wordWrap := .str "bounded", wordWrapColumn := .num 80 }
        sampleFontInfo "monaco-editor" false 1 true 1).wrappingInfo.wrappingColumn = 80 ∧
    (createInternalEditorOptions sampleLayout sampleGlobals 800 600
        { sampleOpts with wordWrap := .str "bounded", wordWrapColumn := .num 80 }
        sampleFontInfo "monaco-editor" false 1 true 1).wrappingInfo.isViewportWrapping = true :=
  ⟨(resolveBareWrappingInfo_spec false (.str "bounded") (.num 80) 120 80
      (by decide) (by decide)).2.2.1 rfl rfl,
   (resolveBareWrappingInfo_spec true (.str "off") (.num 80) 120 80
      (by decide) (by decide)).1 rfl,
   (resolveBareWrappingInfo_spec false (.str "wordWrapColumn") (.num 80) 120 80
      (by decide) (by decide)).2.2.2.1 rfl rfl,
   (resolveBareWrappingInfo_spec false (.str "off") (.num 80) 120 80
      (by decide) (by decide)).2.2.2.2 rfl (by decide) (by decide) (by decide),
   rfl, rfl⟩

/-- C8: for each of `lineNumbers`, `wordWrap`, `renderWhitespace` and
`renderLineHighlight`, a literal boolean is migrated to the corresponding
enum member before enum dispatch, so the full normalized snapshot with the
boolean equals the snapshot with the migrated string (`true` ~ the
on-equivalent member, `false` ~ the off-equivalent member). -/
theorem booleanEnumMigration_spec (cl : EditorLayoutProviderInput → EditorLayoutInfo)
    (g : Globals) (ow oh : Int) (opts : IEditorOptions) (fi : FontInfo) (cls : String)
    (dom : Bool) (dc : Nat) (cut : Bool) (pr : Int) :
    (createInternalEditorOptions cl g ow oh { opts with lineNumbers := .bool true } fi cls dom dc cut pr =
     createInternalEditorOptions cl g ow oh { opts with lineNumbers := .str "on" } fi cls dom dc cut pr) ∧
    (createInternalEditorOptions cl g ow oh { opts with lineNumbers := .bool false } fi cls dom dc cut pr =
     createInternalEditorOptions cl g ow oh { opts with lineNumbers := .str "off" } fi cls dom dc cut pr) ∧
    (createInternalEditorOptions cl g ow oh { opts with wordWrap := .bool true } fi cls dom dc cut pr =
     createInternalEditorOptions cl g ow oh { opts with wordWrap := .str "on" } fi cls dom dc cut pr) ∧
    (createInternalEditorOptions cl g ow oh { opts with wordWrap := .bool false } fi cls dom dc cut pr =
     createInternalEditorOptions cl g ow oh { opts with wordWrap := .str "off" } fi cls dom dc cut pr) ∧
    (createInternalEditorOptions cl g ow oh { opts with renderWhitespace := .bool true } fi cls dom dc cut pr =
     createInternalEditorOptions cl g ow oh { opts with renderWhitespace := .str "boundary" } fi cls dom dc cut pr) ∧
    (createInternalEditorOptions cl g ow oh { opts with renderWhitespace := .bool false } fi cls dom dc cut pr =
     createInternalEditorOptions cl g ow oh { opts with renderWhitespace := .str "none" } fi cls dom dc cut pr) ∧
    (createInternalEditorOptions cl g ow oh { opts with renderLineHighlight := .bool true } fi cls dom dc cut pr =
     createInternalEditorOptions cl g ow oh { opts with renderLineHighlight := .str "line" } fi cls dom dc cut pr) ∧
    (createInternalEditorOptions cl g ow oh { opts with renderLineHighlight := .bool false } fi cls dom dc cut pr =
     createInternalEditorOptions cl g ow oh { opts with renderLineHighlight := .str "none" } fi cls dom dc cut pr) :=
  ⟨rfl, rfl, rfl, rfl, rfl, rfl, rfl, rfl⟩

/-- C9 counterexample: two normalization passes with identical raw options,
environment measurements, font info, editor class name and
accelerated-transform flag — but different current values of the
process-wide tab-focus shared toggle — produce structurally different
snapshots, so the normalizer is not a pure function of the claim's listed
inputs alone. -/
theorem normalize_reads_tabFocus_global :
    (createInternalEditorOptions sampleLayout sampleGlobals 800 600 sampleOpts
        sampleFontInfo "monaco-editor" false 1 true 1).tabFocusMode = false ∧
    (createInternalEditorOptions sampleLayout sampleGlobalsTabFocusOn 800 600 sampleOpts
        sampleFontInfo "monaco-editor" false 1 true 1).tabFocusMode = true ∧
    createInternalEditorOptions sampleLayout sampleGlobals 800 600 sampleOpts
        sampleFontInfo "monaco-editor" false 1 true 1 ≠
      createInternalEditorOptions sampleLayout sampleGlobalsTabFocusOn 800 600 sampleOpts
        sampleFontInfo "monaco-editor" false 1 true 1 :=
  ⟨rfl, rfl, fun h => absurd (congrArg InternalEditorOptions.tabFocusMode h) (by decide)⟩

/-- C9 (amended): normalization is pure and deterministic given the listed
inputs plus the current value of the tab-focus shared toggle it reads: two
passes whose raw options, environment measurements, font info, class name,
accelerated-transform flag and tab-focus value coincide produce
structurally identical snapshots, regardless of any other process state
(screen-reader toggle, subscriber lists). -/
theorem normalize_deterministic (cl : EditorLayoutProviderInput → EditorLayoutInfo)
    (g1 g2 : Globals) (ow oh : Int) (opts : IEditorOptions) (fi : FontInfo) (cls : String)
    (dom : Bool) (dc : Nat) (cut : Bool) (pr : Int)
    (h : g1.tabFocus.value = g2.tabFocus.value) :
    createInternalEditorOptions cl g1 ow oh opts fi cls dom dc cut pr =
    createInternalEditorOptions cl g2 ow oh opts fi cls dom dc cut pr := by
  simp only [createInternalEditorOptions, TabFocus_getTabFocusMode, h]

/-- Witness for C9 (amended): same tab-focus value but different
screen-reader value and different subscriber lists still give identical
snapshots. -/
theorem normalize_deterministic_witness :
    createInternalEditorOptions sampleLayout sampleGlobals 800 600 sampleOpts
        sampleFontInfo "monaco-editor" false 1 true 1 =
      createInternalEditorOptions sampleLayout
        { tabFocus := { value := false, subscribers := [3, 4] }
          screenReader := { value := true, subscribers := [5] } }
        800 600 sampleOpts sampleFontInfo "monaco-editor" false 1 true 1 :=
  normalize_deterministic sampleLayout sampleGlobals
    { tabFocus := { value := false, subscribers := [3, 4] }
      screenReader := { value := true, subscribers := [5] } }
    800 600 sampleOpts sampleFontInfo "monaco-editor" false 1 true 1 rfl

/-- C5: when the `readOnly` option coerces to `true`, the normalized
snapshot's `tabFocusMode` is `true` even though the process-wide tab-focus
shared toggle currently holds `false`, and the recomputation pass leaves
the shared toggle's stored value unchanged (a subsequent `get` still
returns the prior value). -/
theorem readOnly_forces_tabFocusMode (env : ConfigEnv) (sys : SysState)
    (hro : toBoolean sys.config.rawOptions.readOnly = true)
    (_htf : sys.globals.tabFocus.value = false) :
    (computeInternalOptions env sys.globals sys.config).tabFocusMode = true ∧
    (recomputePass env sys).1.globals = sys.globals ∧
    TabFocus_getTabFocusMode (recomputePass env sys).1.globals.tabFocus =
      TabFocus_getTabFocusMode sys.globals.tabFocus := by
  refine ⟨?_, rfl, rfl⟩
  simp [computeInternalOptions, createInternalEditorOptions, hro]

/-- Witness for C5 on the concrete read-only system state (toggle at
`false`). -/
theorem readOnly_forces_tabFocusMode_witness :
    (computeInternalOptions sampleEnv sampleSysReadOnly.globals sampleSysReadOnly.config).tabFocusMode = true ∧
    (recomputePass sampleEnv sampleSysReadOnly).1.globals = sampleSysReadOnly.globals ∧
    TabFocus_getTabFocusMode (recomputePass sampleEnv sampleSysReadOnly).1.globals.tabFocus =
      TabFocus_getTabFocusMode sampleSysReadOnly.globals.tabFocus :=
  readOnly_forces_tabFocusMode sampleEnv sampleSysReadOnly rfl rfl

/-- C1 counterexample: on an effective transition (new snapshot structurally
different from the current one) the store emits an event and installs the
new snapshot, but the old snapshot is retained nowhere — in particular the
`editorClone` handle holds a clone of the NEW snapshot, not of the old
one — refuting the claim that "the old one is retained as a clonable
previous handle". -/
theorem setOptions_does_not_retain_old :
    (setOptions sampleState sampleSnapshotReadOnly).2 ≠ none ∧
    sampleState.editor = sampleSnapshot ∧
    (setOptions sampleState sampleSnapshotReadOnly).1.editor ≠ sampleSnapshot ∧
    (setOptions sampleState sampleSnapshotReadOnly).1.editorClone ≠ sampleSnapshot ∧
    (setOptions sampleState sampleSnapshotReadOnly).1.editorClone = sampleSnapshotReadOnly := by
  have hne : sampleSnapshot ≠ sampleSnapshotReadOnly :=
    fun h => absurd (congrArg InternalEditorOptions.readOnly h) (by decide)
  have hfalse : snapshotEquals sampleState.editor sampleSnapshotReadOnly = false := by
    show snapshotEquals sampleSnapshot sampleSnapshotReadOnly = false
    unfold snapshotEquals
    exact decide_eq_false hne
  have hset : setOptions sampleState sampleSnapshotReadOnly =
      ({ sampleState with
          editor := sampleSnapshotReadOnly,
          editorClone := sampleSnapshotReadOnly },
       some (createChangeEvent sampleState.editor sampleSnapshotReadOnly)) := by
    unfold setOptions
    rw [hfalse]
    rfl
  refine ⟨?_, rfl, ?_, ?_, ?_⟩
  · rw [hset]
    exact Option.some_ne_none _
  · rw [hset]
    exact Ne.symm hne
  · rw [hset]
    exact Ne.symm hne
  · rw [hset]

/-- C1 (amended): on every recomputation trigger `_setOptions` emits a
change event if and only if the newly computed snapshot differs from the
current one by exact structural equality; when equal, the state is
entirely unchanged and no event fires; when unequal, the new snapshot
becomes current, the `editorClone` handle is set to a clone of the new
snapshot (the old snapshot is not retained), all other store fields are
untouched, and exactly one change delta is emitted, marking precisely the
top-level groups whose values differ. -/
theorem setOptions_spec (s : ConfigState) (newOptions : InternalEditorOptions) :
    ((setOptions s newOptions).2 ≠ none ↔ s.editor ≠ newOptions) ∧
    (s.editor = newOptions → setOptions s newOptions = (s, none)) ∧
    (s.editor ≠ newOptions →
        (setOptions s newOptions).1.editor = newOptions ∧
        (setOptions s newOptions).1.editorClone = snapshotClone newOptions ∧
        (setOptions s newOptions).1.rawOptions = s.rawOptions ∧
        (setOptions s newOptions).1.isDominatedByLongLines = s.isDominatedByLongLines ∧
        (setOptions s newOptions).1.lineNumbersDigitCount = s.lineNumbersDigitCount ∧
        (setOptions s newOptions).2 = some (createChangeEvent s.editor newOptions)) ∧
    (∀ a b : InternalEditorOptions,
        ((createChangeEvent a b).lineHeight = true ↔ a.lineHeight ≠ b.lineHeight) ∧
        ((createChangeEvent a b).readOnly = true ↔ a.readOnly ≠ b.readOnly) ∧
        ((createChangeEvent a b).wordSeparators = true ↔ a.wordSeparators ≠ b.wordSeparators) ∧
        ((createChangeEvent a b).autoClosingBrackets = true ↔ a.autoClosingBrackets ≠ b.autoClosingBrackets) ∧
        ((createChangeEvent a b).useTabStops = true ↔ a.useTabStops ≠ b.useTabStops) ∧
        ((createChangeEvent a b).tabFocusMode = true ↔ a.tabFocusMode ≠ b.tabFocusMode) ∧
        ((createChangeEvent a b).dragAndDrop = true ↔ a.dragAndDrop ≠ b.dragAndDrop) ∧
        ((createChangeEvent a b).layoutInfo = true ↔ a.layoutInfo ≠ b.layoutInfo) ∧
        ((createChangeEvent a b).fontInfo = true ↔ a.fontInfo ≠ b.fontInfo) ∧
        ((createChangeEvent a b).viewInfo = true ↔ a.viewInfo ≠ b.viewInfo) ∧
        ((createChangeEvent a b).wrappingInfo = true ↔ a.wrappingInfo ≠ b.wrappingInfo) ∧
        ((createChangeEvent a b).contribInfo = true ↔ a.contribInfo ≠ b.contribInfo)) := by
  have hif : ∀ h : s.editor ≠ newOptions,
      setOptions s newOptions =
        ({ s with editor := newOptions, editorClone := snapshotClone newOptions },
         some (createChangeEvent s.editor newOptions)) := by
    intro h
    unfold setOptions
    rw [show snapshotEquals s.editor newOptions = false from decide_eq_false h]
    rfl
  refine ⟨?_, ?_, ?_, ?_⟩
  · by_cases h : s.editor = newOptions
    · simp only [setOptions]
      rw [show snapshotEquals s.editor newOptions = true from decide_eq_true h]
      simp [h]
    · rw [hif h]
      simp [h]
  · intro h
    unfold setOptions
    rw [show snapshotEquals s.editor newOptions = true from decide_eq_true h]
    rfl
  · intro h
    rw [hif h]
    exact ⟨rfl, rfl, rfl, rfl, rfl, rfl⟩
  · intro a b
    unfold createChangeEvent
    refine ⟨?_, ?_, ?_, ?_, ?_, ?_, ?_, ?_, ?_, ?_, ?_, ?_⟩ <;> exact decide_eq_true_iff

/-- Witness for C1 (amended): on the concrete store, installing a
structurally equal snapshot is a no-op with no event, installing the
read-only snapshot replaces the current one, clones the new one, and emits
an event whose `readOnly` group is marked because that group differs. -/
theorem setOptions_spec_witness :
    setOptions sampleState sampleSnapshot = (sampleState, none) ∧
    (setOptions sampleState sampleSnapshotReadOnly).1.editor = sampleSnapshotReadOnly ∧
    (setOptions sampleState sampleSnapshotReadOnly).1.editorClone =
      snapshotClone sampleSnapshotReadOnly ∧
    (setOptions sampleState sampleSnapshotReadOnly).2 =
      some (createChangeEvent sampleState.editor sampleSnapshotReadOnly) ∧
    ((createChangeEvent sampleSnapshot sampleSnapshotReadOnly).readOnly = true ↔
      sampleSnapshot.readOnly ≠ sampleSnapshotReadOnly.readOnly) := by
  have hne : sampleState.editor ≠ sampleSnapshotReadOnly := fun h =>
    absurd (congrArg InternalEditorOptions.readOnly h) (by decide)
  have h := setOptions_spec sampleState sampleSnapshotReadOnly
  exact ⟨(setOptions_spec sampleState sampleSnapshot).2.1 rfl,
    (h.2.2.1 hne).1, (h.2.2.1 hne).2.1, (h.2.2.1 hne).2.2.2.2.2,
    (h.2.2.2 sampleSnapshot sampleSnapshotReadOnly).2.1⟩
